import Mathlib

/-!
# node-groove: lifecycle, connection and device-enumeration layer

A shallow embedding of `src/groove.cc`.  The native methods `SetLogging`,
`ConnectSoundBackend`, `DisconnectSoundBackend`, `GetDevices`, the exit
callback `cleanup` and the module initialiser `Initialize` are state-passing
functions over an explicit world.

libsoundio and libgroove are linked libraries, not part of the sources.  Their
entry points are therefore parameters (`SoundIoLib`): every theorem holds for
an arbitrary library, under hypotheses spelled out in its statement where the
property depends on what the library does.  Each native call is logged in the
world, so that "makes no call" and "calls exactly once" are statements about
that log.

A JavaScript number is a finite value (a rational: every finite double is
one), NaN or an infinity; all of them pass `IsNumber()`.  The C++ conversion
of a double to the 32-bit `int` truncates toward zero when the result fits.
For NaN, the infinities and values whose truncation does not fit, C++ leaves
the result undefined; the conversion instruction of x86-64 (`cvttsd2si`)
then yields `INT_MIN`, and that is the value the model takes.
-/

namespace Groove

/-! ## Values crossing the scripting boundary -/

/-- A JavaScript number (a double): finite, NaN, or an infinity with its
sign. -/
inductive JsNumber where
  | finite (q : Rat)
  | nan
  | infinity (negative : Bool)
  deriving DecidableEq

/-- A JavaScript value, as far as `IsNumber()` and `NumberValue()` can tell. -/
inductive JsValue where
  | undefined
  | null
  | boolean (b : Bool)
  | number (d : JsNumber)
  | string (s : String)
  | object
  deriving DecidableEq

/-- The check `v->IsNumber()`. -/
def JsValue.IsNumber : JsValue → Bool
  | JsValue.number _ => true
  | _ => false

/-- The least value of the 32-bit `int`. -/
def INT_MIN : Int := -2147483648

/-- The greatest value of the 32-bit `int`. -/
def INT_MAX : Int := 2147483647

/-- Truncation of a finite number toward zero. -/
def truncate (q : Rat) : Int := Int.tdiv q.num q.den

/-- The conversion of a double to `int`, as in `(int)info[0]->NumberValue()`
(line 41) and in the argument of `groove_set_logging` (line 31): truncation
toward zero when the result fits in 32 bits, `INT_MIN` otherwise (NaN, an
infinity, or a truncation out of range). -/
def toInt : JsNumber → Int
  | JsNumber.finite q =>
    if INT_MIN ≤ truncate q ∧ truncate q ≤ INT_MAX then truncate q else INT_MIN
  | JsNumber.nan => INT_MIN
  | JsNumber.infinity _ => INT_MIN

/-- The value `v->NumberValue()` converted to `int`.  It is only read after
`IsNumber()` succeeded; the other values never reach it and the model answers
0 for them. -/
def JsValue.IntValue : JsValue → Int
  | JsValue.number d => toInt d
  | _ => 0

/-- The element `info[i]`: `undefined` past the end of the argument list. -/
def arg (info : List JsValue) (i : Nat) : JsValue := info.getD i JsValue.undefined

/-- An exception thrown into the calling script: `Nan::ThrowTypeError` or
`Nan::ThrowError`, with its message. -/
inductive JsException where
  | TypeError (msg : String)
  | Error (msg : String)
  deriving DecidableEq

/-- Whether the exception is the argument error (`InvalidArgument`): the
methods report it with `Nan::ThrowTypeError`. -/
def JsException.isTypeError : JsException → Bool
  | JsException.TypeError _ => true
  | JsException.Error _ => false

/-- A JavaScript array: a list of slots, `none` being a hole. -/
abbrev JsArray (γ : Type) := List (Option γ)

/-- The store `Nan::Set(array, i, v)`: overwrites slot `i` when it exists,
otherwise grows the array with holes up to `i` and puts `v` there. -/
def JsArray.set {γ : Type} (a : JsArray γ) (i : Nat) (v : γ) : JsArray γ :=
  if i < a.length then List.set a i (some v)
  else a ++ List.replicate (i - a.length) none ++ [some v]

/-! ## The native libraries -/

/-- A call into libsoundio or libgroove, with its arguments. -/
inductive NativeCall where
  | soundio_disconnect
  | soundio_connect
  | soundio_connect_backend (backend : Int)
  | soundio_flush_events
  | soundio_output_device_count
  | soundio_default_output_device_index
  | soundio_get_output_device (index : Int)
  | groove_set_logging (level : Int)
  deriving DecidableEq

/-- The part of libsoundio that `groove.cc` uses, over a handle state `σ` and
a raw device type `δ`.  `SoundIoBackendNone` is the enumeration constant of
`soundio.h`; `current_backend` is the field `soundio->current_backend`; the
connect calls return the error code and the new handle state. -/
structure SoundIoLib (σ δ : Type) where
  SoundIoBackendNone : Int
  current_backend : σ → Int
  soundio_disconnect : σ → σ
  soundio_connect : σ → Int × σ
  soundio_connect_backend : σ → Int → Int × σ
  soundio_flush_events : σ → σ
  soundio_output_device_count : σ → Int
  soundio_default_output_device_index : σ → Int
  soundio_get_output_device : σ → Int → δ
  soundio_strerror : Int → String

/-- The process state the native methods act on: the handle behind the static
`soundio` pointer, the log level held by libgroove, and the log of native
calls made so far (oldest first). -/
structure World (σ : Type) where
  soundio : σ
  log_level : Int
  calls : List NativeCall

/-- What a native method leaves behind: the world, the pending exception if it
threw, and the value it set with `info.GetReturnValue().Set`. -/
structure Outcome (σ ρ : Type) where
  world : World σ
  exception : Option JsException
  returnValue : Option ρ

/-- Appends one native call to the log. -/
def World.logCall {σ : Type} (w : World σ) (c : NativeCall) : World σ :=
  { w with calls := w.calls ++ [c] }

/-! ## The native methods -/

/-- `NAN_METHOD(SetLogging)`. -/
def SetLogging {σ : Type} (info : List JsValue) (w : World σ) : Outcome σ Unit :=
  if info.length < 1 ∨ (arg info 0).IsNumber = false then
    ⟨w, some (JsException.TypeError "Expected 1 number argument"), none⟩
  else
    let level := (arg info 0).IntValue
    ⟨{ (w.logCall (NativeCall.groove_set_logging level)) with log_level := level }, none, none⟩

/-- The argument handling that opens `ConnectSoundBackend` (lines 35 to 45):
the backend requested, or the exception thrown. -/
def ConnectSoundBackend.backend {σ δ : Type} (lib : SoundIoLib σ δ)
    (info : List JsValue) : Except JsException Int :=
  if info.length = 1 then
    if (arg info 0).IsNumber = false then
      Except.error (JsException.TypeError "Expected 0 or 1 args")
    else
      Except.ok (arg info 0).IntValue
  else if info.length > 1 then
    Except.error (JsException.TypeError "Expected 0 or 1 args")
  else
    Except.ok lib.SoundIoBackendNone

/-- The guarded teardown `if (soundio->current_backend != SoundIoBackendNone)
soundio_disconnect(soundio);` shared by connect and disconnect. -/
def disconnectIfConnected {σ δ : Type} (lib : SoundIoLib σ δ) (w : World σ) : World σ :=
  if lib.current_backend w.soundio ≠ lib.SoundIoBackendNone then
    { (w.logCall NativeCall.soundio_disconnect) with
      soundio := lib.soundio_disconnect w.soundio }
  else w

/-- The native call chosen on lines 50 and 51. -/
def ConnectSoundBackend.call {σ δ : Type} (lib : SoundIoLib σ δ) (backend : Int) :
    NativeCall :=
  if backend = lib.SoundIoBackendNone then NativeCall.soundio_connect
  else NativeCall.soundio_connect_backend backend

/-- The result of the native call chosen on lines 50 and 51: error code and
new handle state. -/
def ConnectSoundBackend.attempt {σ δ : Type} (lib : SoundIoLib σ δ) (backend : Int)
    (s : σ) : Int × σ :=
  if backend = lib.SoundIoBackendNone then lib.soundio_connect s
  else lib.soundio_connect_backend s backend

/-- `NAN_METHOD(ConnectSoundBackend)`. -/
def ConnectSoundBackend {σ δ : Type} (lib : SoundIoLib σ δ) (info : List JsValue)
    (w : World σ) : Outcome σ Unit :=
  match ConnectSoundBackend.backend lib info with
  | Except.error e => ⟨w, some e, none⟩
  | Except.ok backend =>
    let w1 := disconnectIfConnected lib w
    let r := ConnectSoundBackend.attempt lib backend w1.soundio
    let w2 : World σ :=
      { (w1.logCall (ConnectSoundBackend.call lib backend)) with soundio := r.2 }
    if r.1 ≠ 0 then
      ⟨w2, some (JsException.Error (lib.soundio_strerror r.1)), none⟩
    else
      ⟨w2, none, none⟩

/-- `NAN_METHOD(DisconnectSoundBackend)`; the arguments are not read. -/
def DisconnectSoundBackend {σ δ : Type} (lib : SoundIoLib σ δ) (_info : List JsValue)
    (w : World σ) : Outcome σ Unit :=
  ⟨disconnectIfConnected lib w, none, none⟩

/-- The object `{ list, defaultIndex }` returned by `GetDevices`. -/
structure DeviceListResult (γ : Type) where
  list : JsArray γ
  defaultIndex : Int

/-- The loop of lines 79 to 83 over `i = 0 .. output_count - 1`: each round
fetches device `i`, wraps it with `GNDevice::NewInstance` and stores it at
index `i`.  The accumulator is the call log and the array. -/
def GetDevices.loop {σ δ γ : Type} (lib : SoundIoLib σ δ) (NewInstance : δ → γ)
    (s : σ) (output_count : Int) (calls : List NativeCall) (deviceList : JsArray γ) :
    List NativeCall × JsArray γ :=
  (List.range output_count.toNat).foldl
    (fun acc (i : Nat) =>
      (acc.1 ++ [NativeCall.soundio_get_output_device (i : Int)],
       JsArray.set acc.2 i (NewInstance (lib.soundio_get_output_device s (i : Int)))))
    (calls, deviceList)

/-- `NAN_METHOD(GetDevices)`; `NewInstance` is `GNDevice::NewInstance`, the
constructor of the device wrapper (device.h). -/
def GetDevices {σ δ γ : Type} (lib : SoundIoLib σ δ) (NewInstance : δ → γ)
    (_info : List JsValue) (w : World σ) : Outcome σ (DeviceListResult γ) :=
  if lib.current_backend w.soundio = lib.SoundIoBackendNone then
    ⟨w, some (JsException.Error "no backend connected"), none⟩
  else
    let s := lib.soundio_flush_events w.soundio
    let output_count := lib.soundio_output_device_count s
    let default_output := lib.soundio_default_output_device_index s
    let calls := w.calls ++ [NativeCall.soundio_flush_events,
      NativeCall.soundio_output_device_count,
      NativeCall.soundio_default_output_device_index]
    let r := GetDevices.loop lib NewInstance s output_count calls []
    ⟨{ w with soundio := s, calls := r.1 }, none, some ⟨r.2, default_output⟩⟩

/-! ## Histories of connect and disconnect calls -/

/-- One call of the connection methods from the script, with its arguments. -/
inductive Request where
  | connectSoundBackend (info : List JsValue)
  | disconnectSoundBackend (info : List JsValue)

/-- The world after one request; an exception thrown by it is the caller's. -/
def Request.run {σ δ : Type} (lib : SoundIoLib σ δ) : Request → World σ → World σ
  | Request.connectSoundBackend info, w => (ConnectSoundBackend lib info w).world
  | Request.disconnectSoundBackend info, w => (DisconnectSoundBackend lib info w).world

/-- The world after a sequence of requests, first to last. -/
def runHistory {σ δ : Type} (lib : SoundIoLib σ δ) (history : List Request)
    (w : World σ) : World σ :=
  history.foldl (fun acc r => r.run lib acc) w

/-! ## Module initialisation and process exit -/

/-- The two handles owned by the module. -/
inductive Handle where
  | soundio
  | groove
  deriving DecidableEq

/-- The lifecycle steps of `Initialize`, `cleanup` and `abort`, as they occur.
Create and destroy steps carry the pointer involved (`none` is NULL). -/
inductive LifecycleEvent where
  | soundio_create (result : Option Nat)
  | groove_create (err : Int) (result : Option Nat)
  | atexit_cleanup
  | abort
  | init (subsystem : String)
  | setProperty (name : String)
  | setMethod (name : String)
  | groove_destroy (handle : Option Nat)
  | soundio_destroy (handle : Option Nat)
  deriving DecidableEq

/-- A function registered with `atexit`; `cleanup` is the only one this module
registers. -/
inductive ExitCallback where
  | cleanup
  deriving DecidableEq

/-- The process around the module: the two static pointers, the `atexit`
registrations (oldest first), the lifecycle steps so far, and whether the
process was aborted. -/
structure Process where
  soundio : Option Nat
  groove : Option Nat
  atexit : List ExitCallback
  events : List LifecycleEvent
  aborted : Bool
  deriving DecidableEq

/-- The process before the module is loaded: `soundio = NULL`, `groove = NULL`
(lines 17 and 18), nothing registered. -/
def Process.start : Process := ⟨none, none, [], [], false⟩

/-- `static void cleanup(void)`. -/
def cleanup (p : Process) : Process :=
  { p with events := p.events ++
      [LifecycleEvent.groove_destroy p.groove, LifecycleEvent.soundio_destroy p.soundio] }

/-- The subsystem `Init()` calls of lines 135 to 143, in order. -/
def Initialize.subsystems : List String :=
  ["GNFile", "GNPlayer", "GNPlaylist", "GNPlaylistItem", "GNLoudnessDetector",
   "GNEncoder", "GNFingerprinter", "GNDevice", "GNWaveformBuilder"]

/-- The constants set on the module object, lines 145 to 170, in order. -/
def Initialize.properties : List String :=
  ["LOG_QUIET", "LOG_ERROR", "LOG_WARNING", "LOG_INFO",
   "TAG_MATCH_CASE", "TAG_DONT_OVERWRITE", "TAG_APPEND",
   "EVERY_SINK_FULL", "ANY_SINK_FULL",
   "_EVENT_NOWPLAYING", "_EVENT_BUFFERUNDERRUN", "_EVENT_DEVICE_CLOSED",
   "_EVENT_DEVICE_OPENED", "_EVENT_DEVICE_OPEN_ERROR", "_EVENT_END_OF_PLAYLIST",
   "_EVENT_WAKEUP",
   "BACKEND_JACK", "BACKEND_PULSEAUDIO", "BACKEND_ALSA", "BACKEND_COREAUDIO",
   "BACKEND_WASAPI", "BACKEND_DUMMY"]

/-- The methods set on the module object, lines 172 to 186, in order. -/
def Initialize.methods : List String :=
  ["setLogging", "getDevices", "connectSoundBackend", "disconnectSoundBackend",
   "getVersion", "open", "createPlayer", "createPlaylist", "createLoudnessDetector",
   "createEncoder", "createFingerprinter", "createWaveformBuilder",
   "encodeFingerprint", "decodeFingerprint"]

/-- `NAN_MODULE_INIT(Initialize)`.  `soundio_create` is the pointer returned by
the call of that name; `groove_create` is the error code returned by
`groove_create(&groove)` and the pointer it stored. -/
def Initialize (soundio_create : Option Nat) (groove_create : Int × Option Nat)
    (p : Process) : Process :=
  let p1 : Process :=
    { p with soundio := soundio_create,
             events := p.events ++ [LifecycleEvent.soundio_create soundio_create] }
  if soundio_create = none then
    { p1 with events := p1.events ++ [LifecycleEvent.abort], aborted := true }
  else
    let p2 : Process :=
      { p1 with groove := groove_create.2,
                events := p1.events ++
                  [LifecycleEvent.groove_create groove_create.1 groove_create.2] }
    if groove_create.1 ≠ 0 then
      { p2 with events := p2.events ++ [LifecycleEvent.abort], aborted := true }
    else
      { p2 with atexit := p2.atexit ++ [ExitCallback.cleanup],
                events := p2.events ++ [LifecycleEvent.atexit_cleanup]
                  ++ Initialize.subsystems.map LifecycleEvent.init
                  ++ Initialize.properties.map LifecycleEvent.setProperty
                  ++ Initialize.methods.map LifecycleEvent.setMethod }

/-- Runs one registered callback. -/
def ExitCallback.run : ExitCallback → Process → Process
  | ExitCallback.cleanup, p => Groove.cleanup p

/-- Normal process termination: the C runtime calls the `atexit` registrations,
latest first.  An aborted process runs none of them. -/
def processExit (p : Process) : Process :=
  if p.aborted then p else p.atexit.reverse.foldl (fun acc cb => cb.run acc) p

/-- The handles created, in order of creation. -/
def creations : List LifecycleEvent → List Handle
  | [] => []
  | LifecycleEvent.soundio_create _ :: es => Handle.soundio :: creations es
  | LifecycleEvent.groove_create _ _ :: es => Handle.groove :: creations es
  | _ :: es => creations es

/-- The handles destroyed, in order of destruction. -/
def destructions : List LifecycleEvent → List Handle
  | [] => []
  | LifecycleEvent.soundio_destroy _ :: es => Handle.soundio :: destructions es
  | LifecycleEvent.groove_destroy _ :: es => Handle.groove :: destructions es
  | _ :: es => destructions es

/-! ## A reference library -/

/-- Modelled from the spec: libsoundio is linked, not part of the sources.
This is the handle state of a small library that behaves as sections 3 and 4
describe the backend: the backend kind connected (0 when disconnected), the
backend kinds that can be initialised on this system in order of preference,
the output devices present, and the default output index it reports. -/
structure RefSoundIo where
  current_backend : Int
  available : List Int
  devices : List String
  default_output : Int
  deriving DecidableEq

/-- Modelled from the spec: the reference library.  Backend kinds are numbered
as `soundio.h` lists them (None 0, Jack 1, PulseAudio 2, ALSA 3, CoreAudio 4,
WASAPI 5, Dummy 6).  Disconnecting transitions to Disconnected; a connect
succeeds exactly when the handle is disconnected and the backend can be
initialised, and then the state is Connected with the backend used; a failed
connect returns a non-zero code (6 invalid, 7 unavailable, 2 none could be
initialised) and leaves the handle as it was. -/
def refLib : SoundIoLib RefSoundIo String where
  SoundIoBackendNone := 0
  current_backend := fun s => s.current_backend
  soundio_disconnect := fun s => { s with current_backend := 0 }
  soundio_connect := fun s =>
    if s.current_backend ≠ 0 then (6, s)
    else match s.available.filter (fun b => decide (1 ≤ b) && decide (b ≤ 6)) with
      | [] => (2, s)
      | b :: _ => (0, { s with current_backend := b })
  soundio_connect_backend := fun s b =>
    if s.current_backend ≠ 0 then (6, s)
    else if b ≤ 0 ∨ b > 6 then (6, s)
    else if b ∈ s.available then (0, { s with current_backend := b })
    else (7, s)
  soundio_flush_events := fun s => s
  soundio_output_device_count := fun s => s.devices.length
  soundio_default_output_device_index := fun s => s.default_output
  soundio_get_output_device := fun s i => s.devices.getD i.toNat ""
  soundio_strerror := fun e =>
    if e = 0 then "(no error)"
    else if e = 2 then "unable to initialize audio backend"
    else if e = 6 then "invalid value"
    else if e = 7 then "backend unavailable"
    else "(invalid error)"

/-- A reference system offering ALSA and the dummy backend, with two output
devices, in the given connection state. -/
def refWorld (current_backend : Int) : World RefSoundIo :=
  ⟨⟨current_backend, [3, 6], ["hw:0", "hw:1"], 0⟩, 0, []⟩

/-! # Theorems -/

/-! ## The conversion to `int` -/

/-- The conversion always lands in the 32-bit range. -/
theorem toInt_range (d : JsNumber) : INT_MIN ≤ toInt d ∧ toInt d ≤ INT_MAX := by
  cases d with
  | finite q =>
    by_cases h : INT_MIN ≤ truncate q ∧ truncate q ≤ INT_MAX
    · simp only [toInt, if_pos h]
      exact h
    · simp only [toInt, if_neg h]
      decide
  | nan => decide
  | infinity negative =>
    show INT_MIN ≤ INT_MIN ∧ INT_MIN ≤ INT_MAX
    decide

/-- On a finite number whose truncation fits in 32 bits the conversion is the
truncation. -/
theorem toInt_finite (q : Rat) (hlo : INT_MIN ≤ truncate q) (hhi : truncate q ≤ INT_MAX) :
    toInt (JsNumber.finite q) = truncate q := by
  simp only [toInt, if_pos (And.intro hlo hhi)]

/-- The conversion at 2, at 2^31 and 2^32 (out of range), at -2^31 (the least
value in range), and at NaN. -/
theorem toInt_samples :
    toInt (JsNumber.finite 2) = 2 ∧
    toInt (JsNumber.finite 2147483648) = -2147483648 ∧
    toInt (JsNumber.finite 4294967296) = -2147483648 ∧
    toInt (JsNumber.finite (-2147483648)) = -2147483648 ∧
    toInt JsNumber.nan = -2147483648 := by
  decide

/-! ## Argument handling of `ConnectSoundBackend` -/

theorem backend_nil {σ δ : Type} (lib : SoundIoLib σ δ) :
    ConnectSoundBackend.backend lib [] = Except.ok lib.SoundIoBackendNone := by
  simp [ConnectSoundBackend.backend]

theorem backend_number {σ δ : Type} (lib : SoundIoLib σ δ) (d : JsNumber) :
    ConnectSoundBackend.backend lib [JsValue.number d] = Except.ok (toInt d) := by
  simp [ConnectSoundBackend.backend, arg, JsValue.IsNumber, JsValue.IntValue]

theorem backend_invalid {σ δ : Type} (lib : SoundIoLib σ δ) (info : List JsValue)
    (h : ¬ (info = [] ∨ ∃ d, info = [JsValue.number d])) :
    ConnectSoundBackend.backend lib info =
      Except.error (JsException.TypeError "Expected 0 or 1 args") := by
  match info, h with
  | [], h => exact absurd (Or.inl rfl) h
  | [v], h =>
    cases v with
    | number d => exact absurd (Or.inr ⟨d, rfl⟩) h
    | _ => simp [ConnectSoundBackend.backend, arg, JsValue.IsNumber]
  | _ :: _ :: _, _ => simp [ConnectSoundBackend.backend]

/-- The argument check passes exactly on zero arguments or one number. -/
theorem backend_ok_iff {σ δ : Type} (lib : SoundIoLib σ δ) (info : List JsValue) :
    (∃ b, ConnectSoundBackend.backend lib info = Except.ok b) ↔
      (info = [] ∨ ∃ d, info = [JsValue.number d]) := by
  constructor
  · rintro ⟨b, hb⟩
    by_contra hn
    rw [backend_invalid lib info hn] at hb
    cases hb
  · rintro (h | ⟨d, h⟩)
    · exact ⟨_, h ▸ backend_nil lib⟩
    · exact ⟨_, h ▸ backend_number lib d⟩

/-- What `ConnectSoundBackend` does once its arguments passed the check. -/
theorem connect_of_backend {σ δ : Type} (lib : SoundIoLib σ δ) (info : List JsValue)
    (w : World σ) (b : Int) (hb : ConnectSoundBackend.backend lib info = Except.ok b) :
    ConnectSoundBackend lib info w =
      ⟨{ ((disconnectIfConnected lib w).logCall (ConnectSoundBackend.call lib b)) with
          soundio := (ConnectSoundBackend.attempt lib b (disconnectIfConnected lib w).soundio).2 },
        if (ConnectSoundBackend.attempt lib b (disconnectIfConnected lib w).soundio).1 ≠ 0 then
          some (JsException.Error (lib.soundio_strerror
            (ConnectSoundBackend.attempt lib b (disconnectIfConnected lib w).soundio).1))
        else none,
        none⟩ := by
  unfold ConnectSoundBackend
  rw [hb]
  by_cases h : (ConnectSoundBackend.attempt lib b (disconnectIfConnected lib w).soundio).1 = 0
  · simp [h]
  · simp [h]

/-! ## C2 -/

/-- C2: an argument list that is neither empty nor one number makes
`ConnectSoundBackend` throw the type error "Expected 0 or 1 args" and return
with the world untouched (no native call logged, handle state as before); an
empty list or one number never makes it throw a type error. -/
theorem connect_rejects_exactly_invalid_arguments {σ δ : Type} (lib : SoundIoLib σ δ)
    (info : List JsValue) (w : World σ) :
    (¬ (info = [] ∨ ∃ d, info = [JsValue.number d]) →
      ConnectSoundBackend lib info w =
        ⟨w, some (JsException.TypeError "Expected 0 or 1 args"), none⟩) ∧
    ((info = [] ∨ ∃ d, info = [JsValue.number d]) →
      ∀ e, (ConnectSoundBackend lib info w).exception = some e → e.isTypeError = false) := by
  constructor
  · intro h
    unfold ConnectSoundBackend
    rw [backend_invalid lib info h]
  · intro h e he
    obtain ⟨b, hb⟩ := (backend_ok_iff lib info).mpr h
    rw [connect_of_backend lib info w b hb] at he
    simp only at he
    split at he
    · cases he
      rfl
    · cases he

/-! ## The guarded teardown -/

theorem disconnectIfConnected_connected {σ δ : Type} (lib : SoundIoLib σ δ) (w : World σ)
    (h : lib.current_backend w.soundio ≠ lib.SoundIoBackendNone) :
    disconnectIfConnected lib w =
      { (w.logCall NativeCall.soundio_disconnect) with
        soundio := lib.soundio_disconnect w.soundio } := by
  simp [disconnectIfConnected, h]

theorem disconnectIfConnected_disconnected {σ δ : Type} (lib : SoundIoLib σ δ)
    (w : World σ) (h : lib.current_backend w.soundio = lib.SoundIoBackendNone) :
    disconnectIfConnected lib w = w := by
  simp [disconnectIfConnected, h]

/-- After the guarded teardown the handle is disconnected, provided the
library's disconnect leaves it so. -/
theorem disconnectIfConnected_state {σ δ : Type} (lib : SoundIoLib σ δ)
    (hdisc : ∀ s, lib.current_backend (lib.soundio_disconnect s) = lib.SoundIoBackendNone)
    (w : World σ) :
    lib.current_backend (disconnectIfConnected lib w).soundio = lib.SoundIoBackendNone := by
  by_cases h : lib.current_backend w.soundio = lib.SoundIoBackendNone
  · rw [disconnectIfConnected_disconnected lib w h]
    exact h
  · rw [disconnectIfConnected_connected lib w h]
    exact hdisc w.soundio

/-- A failed connect attempt keeps `current_backend`, when both connect entry
points of the library do. -/
theorem attempt_failed_state {σ δ : Type} (lib : SoundIoLib σ δ)
    (hauto : ∀ s, (lib.soundio_connect s).1 ≠ 0 →
      lib.current_backend (lib.soundio_connect s).2 = lib.current_backend s)
    (hnamed : ∀ s b, (lib.soundio_connect_backend s b).1 ≠ 0 →
      lib.current_backend (lib.soundio_connect_backend s b).2 = lib.current_backend s)
    (b : Int) (s : σ) (h : (ConnectSoundBackend.attempt lib b s).1 ≠ 0) :
    lib.current_backend (ConnectSoundBackend.attempt lib b s).2 = lib.current_backend s := by
  unfold ConnectSoundBackend.attempt at h ⊢
  split
  · rename_i hb
    rw [if_pos hb] at h
    exact hauto s h
  · rename_i hb
    rw [if_neg hb] at h
    exact hnamed s b h

/-! ## The reference library meets the hypotheses used below -/

theorem refLib_disconnect (s : RefSoundIo) :
    refLib.current_backend (refLib.soundio_disconnect s) = refLib.SoundIoBackendNone :=
  rfl

theorem refLib_connect_failed (s : RefSoundIo) (h : (refLib.soundio_connect s).1 ≠ 0) :
    refLib.current_backend (refLib.soundio_connect s).2 = refLib.current_backend s := by
  by_cases h1 : s.current_backend = 0
  · cases hf : s.available.filter (fun b => decide (1 ≤ b) && decide (b ≤ 6)) with
    | nil => simp [refLib, h1, hf]
    | cons b bs => simp [refLib, h1, hf] at h
  · simp [refLib, h1]

theorem refLib_connect_backend_failed (s : RefSoundIo) (b : Int)
    (h : (refLib.soundio_connect_backend s b).1 ≠ 0) :
    refLib.current_backend (refLib.soundio_connect_backend s b).2 =
      refLib.current_backend s := by
  by_cases h1 : s.current_backend = 0
  · by_cases h2 : b ≤ 0 ∨ b > 6
    · simp [refLib, h1, h2]
    · by_cases h3 : b ∈ s.available
      · simp [refLib, h1, h2, h3] at h
      · simp [refLib, h1, h2, h3]
  · simp [refLib, h1]

/-! ## C1 -/

/-- C1, as stated, fails: on the reference system connected to the dummy
backend (6), a request for WASAPI (5), which cannot be initialised there, makes
the native connect return the non-zero code 7 and the method throw
`soundio_strerror(7)`, but the state afterwards is Disconnected (0), not the
Connected(6) it started from. -/
theorem connect_failure_drops_previous_connection :
    (ConnectSoundBackend.attempt refLib 5
        (disconnectIfConnected refLib (refWorld 6)).soundio).1 = 7 ∧
    (ConnectSoundBackend refLib [JsValue.number (JsNumber.finite 5)] (refWorld 6)).exception =
      some (JsException.Error (refLib.soundio_strerror 7)) ∧
    refLib.current_backend (refWorld 6).soundio = 6 ∧
    refLib.current_backend
      (ConnectSoundBackend refLib [JsValue.number (JsNumber.finite 5)]
        (refWorld 6)).world.soundio = 0 := by
  decide

/-- C1, amended: for a library whose disconnect leaves the handle disconnected
and whose failed connect calls keep `current_backend`, for every starting state
and every argument list that passes the check with backend `b` (by
`backend_ok_iff`: zero arguments or one number), a non-zero code from the
native connect call makes `ConnectSoundBackend` throw an error whose message
is `soundio_strerror` of that code, and the state afterwards is Disconnected;
that is the state before the call exactly when the call started Disconnected. -/
theorem connect_failure_reports_and_disconnects {σ δ : Type} (lib : SoundIoLib σ δ)
    (hdisc : ∀ s, lib.current_backend (lib.soundio_disconnect s) = lib.SoundIoBackendNone)
    (hauto : ∀ s, (lib.soundio_connect s).1 ≠ 0 →
      lib.current_backend (lib.soundio_connect s).2 = lib.current_backend s)
    (hnamed : ∀ s b, (lib.soundio_connect_backend s b).1 ≠ 0 →
      lib.current_backend (lib.soundio_connect_backend s b).2 = lib.current_backend s)
    (info : List JsValue) (w : World σ) (b : Int)
    (hb : ConnectSoundBackend.backend lib info = Except.ok b)
    (herr : (ConnectSoundBackend.attempt lib b (disconnectIfConnected lib w).soundio).1 ≠ 0) :
    (ConnectSoundBackend lib info w).exception =
      some (JsException.Error (lib.soundio_strerror
        (ConnectSoundBackend.attempt lib b (disconnectIfConnected lib w).soundio).1)) ∧
    lib.current_backend (ConnectSoundBackend lib info w).world.soundio =
      lib.SoundIoBackendNone ∧
    (lib.current_backend (ConnectSoundBackend lib info w).world.soundio =
        lib.current_backend w.soundio ↔
      lib.current_backend w.soundio = lib.SoundIoBackendNone) := by
  have hstate : lib.current_backend (ConnectSoundBackend lib info w).world.soundio =
      lib.SoundIoBackendNone := by
    rw [connect_of_backend lib info w b hb]
    show lib.current_backend
      (ConnectSoundBackend.attempt lib b (disconnectIfConnected lib w).soundio).2 = _
    rw [attempt_failed_state lib hauto hnamed b _ herr]
    exact disconnectIfConnected_state lib hdisc w
  refine ⟨?_, hstate, ?_⟩
  · rw [connect_of_backend lib info w b hb]
    simp [herr]
  · rw [hstate]
    exact eq_comm

/-- The amended C1 applies: the reference library meets the three hypotheses,
and on a disconnected reference system a request for WASAPI fails. -/
theorem connect_failure_reports_and_disconnects_witness :
    (ConnectSoundBackend refLib [JsValue.number (JsNumber.finite 5)] (refWorld 0)).exception =
      some (JsException.Error (refLib.soundio_strerror
        (ConnectSoundBackend.attempt refLib 5
          (disconnectIfConnected refLib (refWorld 0)).soundio).1)) ∧
    refLib.current_backend
        (ConnectSoundBackend refLib [JsValue.number (JsNumber.finite 5)]
          (refWorld 0)).world.soundio =
      refLib.SoundIoBackendNone ∧
    (refLib.current_backend
        (ConnectSoundBackend refLib [JsValue.number (JsNumber.finite 5)]
          (refWorld 0)).world.soundio =
        refLib.current_backend (refWorld 0).soundio ↔
      refLib.current_backend (refWorld 0).soundio = refLib.SoundIoBackendNone) :=
  connect_failure_reports_and_disconnects refLib refLib_disconnect refLib_connect_failed
    refLib_connect_backend_failed
    [JsValue.number (JsNumber.finite 5)] (refWorld 0) 5 rfl (by decide)

/-! ## The enumeration loop -/

theorem JsArray.set_at_length {γ : Type} (a : JsArray γ) (v : γ) :
    JsArray.set a a.length v = a ++ [some v] := by
  simp [JsArray.set]

/-- The loop stores, for `i` from 0 up to the count, the wrapper of device `i`
at index `i`, and logs one device query per index, in that order. -/
theorem GetDevices.loop_eq {σ δ γ : Type} (lib : SoundIoLib σ δ) (NewInstance : δ → γ)
    (s : σ) (output_count : Int) (calls : List NativeCall) :
    GetDevices.loop lib NewInstance s output_count calls [] =
      (calls ++ (List.range output_count.toNat).map
          (fun (i : Nat) => NativeCall.soundio_get_output_device (i : Int)),
        (List.range output_count.toNat).map
          (fun (i : Nat) => some (NewInstance (lib.soundio_get_output_device s (i : Int))))) := by
  unfold GetDevices.loop
  generalize output_count.toNat = n
  induction n with
  | zero => simp
  | succ n ih =>
    rw [List.range_succ, List.foldl_append, ih]
    have hlen : ((List.range n).map
        (fun (i : Nat) => some (NewInstance (lib.soundio_get_output_device s (i : Int))))).length = n := by
      simp
    simp only [List.foldl_cons, List.foldl_nil, List.map_append, List.map_cons, List.map_nil,
      List.append_assoc]
    congr 1
    conv_lhs => arg 2; rw [← hlen]
    exact JsArray.set_at_length _ _

/-- What `GetDevices` does on a connected handle. -/
theorem getDevices_connected {σ δ γ : Type} (lib : SoundIoLib σ δ) (NewInstance : δ → γ)
    (info : List JsValue) (w : World σ)
    (hconn : lib.current_backend w.soundio ≠ lib.SoundIoBackendNone) :
    GetDevices lib NewInstance info w =
      ⟨{ w with
          soundio := lib.soundio_flush_events w.soundio,
          calls := w.calls ++ [NativeCall.soundio_flush_events,
              NativeCall.soundio_output_device_count,
              NativeCall.soundio_default_output_device_index] ++
            (List.range (lib.soundio_output_device_count
                (lib.soundio_flush_events w.soundio)).toNat).map
              (fun (i : Nat) => NativeCall.soundio_get_output_device (i : Int)) },
        none,
        some ⟨(List.range (lib.soundio_output_device_count
                (lib.soundio_flush_events w.soundio)).toNat).map
              (fun (i : Nat) => some (NewInstance (lib.soundio_get_output_device
                (lib.soundio_flush_events w.soundio) (i : Int)))),
          lib.soundio_default_output_device_index (lib.soundio_flush_events w.soundio)⟩⟩ := by
  unfold GetDevices
  rw [if_neg hconn]
  simp only [GetDevices.loop_eq]

/-! ## C3 -/

/-- C3: from a Connected state, a connect request whose arguments pass the
check with backend `b` (by `backend_ok_iff`: zero arguments or one number)
logs exactly one `soundio_disconnect` followed by the connect call, and the
handle afterwards is
what that connect call made of the disconnected handle.  When the call
succeeds and leaves backend kind `k2` connected, no exception is thrown, the
state is Connected(`k2`), and a following `GetDevices` succeeds and reads its
list and default index from that handle. -/
theorem reconnect_overrides {σ δ γ : Type} (lib : SoundIoLib σ δ) (NewInstance : δ → γ)
    (info : List JsValue) (w : World σ) (b k2 : Int)
    (hb : ConnectSoundBackend.backend lib info = Except.ok b)
    (hconn : lib.current_backend w.soundio ≠ lib.SoundIoBackendNone) :
    (ConnectSoundBackend lib info w).world.calls =
      w.calls ++ [NativeCall.soundio_disconnect, ConnectSoundBackend.call lib b] ∧
    (ConnectSoundBackend lib info w).world.soundio =
      (ConnectSoundBackend.attempt lib b (lib.soundio_disconnect w.soundio)).2 ∧
    ((ConnectSoundBackend.attempt lib b (lib.soundio_disconnect w.soundio)).1 = 0 →
      lib.current_backend
        (ConnectSoundBackend.attempt lib b (lib.soundio_disconnect w.soundio)).2 = k2 →
      k2 ≠ lib.SoundIoBackendNone →
      (ConnectSoundBackend lib info w).exception = none ∧
      lib.current_backend (ConnectSoundBackend lib info w).world.soundio = k2 ∧
      (GetDevices lib NewInstance [] (ConnectSoundBackend lib info w).world).exception = none ∧
      ((GetDevices lib NewInstance [] (ConnectSoundBackend lib info w).world).returnValue.map
          (fun r => (r.list, r.defaultIndex))) =
        some ((List.range (lib.soundio_output_device_count (lib.soundio_flush_events
              (ConnectSoundBackend.attempt lib b (lib.soundio_disconnect w.soundio)).2)).toNat).map
            (fun (i : Nat) => some (NewInstance (lib.soundio_get_output_device
              (lib.soundio_flush_events
                (ConnectSoundBackend.attempt lib b (lib.soundio_disconnect w.soundio)).2)
              (i : Int)))),
          lib.soundio_default_output_device_index (lib.soundio_flush_events
            (ConnectSoundBackend.attempt lib b (lib.soundio_disconnect w.soundio)).2))) := by
  have hw : ConnectSoundBackend lib info w = _ := connect_of_backend lib info w b hb
  rw [disconnectIfConnected_connected lib w hconn] at hw
  refine ⟨?_, ?_, ?_⟩
  · rw [hw]
    simp [World.logCall]
  · rw [hw]
  · intro hok hk2 hne
    have hstate : (ConnectSoundBackend lib info w).world.soundio =
        (ConnectSoundBackend.attempt lib b (lib.soundio_disconnect w.soundio)).2 := by
      rw [hw]
    have hconn2 : lib.current_backend (ConnectSoundBackend lib info w).world.soundio ≠
        lib.SoundIoBackendNone := by
      rw [hstate, hk2]
      exact hne
    refine ⟨?_, ?_, ?_, ?_⟩
    · rw [hw]
      simp [hok]
    · rw [hstate, hk2]
    · rw [getDevices_connected lib NewInstance [] _ hconn2]
    · rw [getDevices_connected lib NewInstance [] _ hconn2, hstate]
      rfl

/-- C3 applies: on the reference system connected to ALSA (3), a request for
the dummy backend (6) succeeds. -/
theorem reconnect_overrides_witness :
    (ConnectSoundBackend refLib [JsValue.number (JsNumber.finite 6)] (refWorld 3)).world.calls =
      [NativeCall.soundio_disconnect, NativeCall.soundio_connect_backend 6] ∧
    refLib.current_backend
      (ConnectSoundBackend refLib [JsValue.number (JsNumber.finite 6)]
        (refWorld 3)).world.soundio = 6 ∧
    ((GetDevices refLib id [] (ConnectSoundBackend refLib [JsValue.number (JsNumber.finite 6)]
        (refWorld 3)).world).returnValue.map (fun r => (r.list, r.defaultIndex))) =
      some ([some "hw:0", some "hw:1"], 0) := by
  have h := reconnect_overrides refLib id [JsValue.number (JsNumber.finite 6)] (refWorld 3)
    6 6 rfl (by decide)
  exact ⟨h.1, (h.2.2 (by decide) (by decide) (by decide)).2.1,
    (h.2.2 (by decide) (by decide) (by decide)).2.2.2.trans (by decide)⟩

/-! ## C4 -/

/-- C4: after any history of connect and disconnect requests that leaves the
handle Disconnected, `GetDevices` throws the error "no backend connected",
sets no return value, and leaves the world as it was: no flush, count,
default-index or device query is logged. -/
theorem getDevices_disconnected_fails {σ δ γ : Type} (lib : SoundIoLib σ δ)
    (NewInstance : δ → γ) (history : List Request) (w0 : World σ) (info : List JsValue)
    (h : lib.current_backend (runHistory lib history w0).soundio = lib.SoundIoBackendNone) :
    GetDevices lib NewInstance info (runHistory lib history w0) =
      ⟨runHistory lib history w0, some (JsException.Error "no backend connected"), none⟩ := by
  unfold GetDevices
  rw [if_pos h]

/-- C4 applies: on the reference system, a successful connect followed by a
disconnect ends Disconnected. -/
theorem getDevices_disconnected_fails_witness :
    refLib.current_backend (runHistory refLib
      [Request.connectSoundBackend [], Request.disconnectSoundBackend []]
      (refWorld 0)).soundio = refLib.SoundIoBackendNone ∧
    GetDevices refLib id [] (runHistory refLib
      [Request.connectSoundBackend [], Request.disconnectSoundBackend []] (refWorld 0)) =
      ⟨runHistory refLib
        [Request.connectSoundBackend [], Request.disconnectSoundBackend []] (refWorld 0),
        some (JsException.Error "no backend connected"), none⟩ :=
  ⟨by decide, getDevices_disconnected_fails refLib id
    [Request.connectSoundBackend [], Request.disconnectSoundBackend []] (refWorld 0) []
    (by decide)⟩

/-! ## C5 -/

/-- C5: on a connected handle whose backend reports a count `c ≥ 0` of output
devices after the flush, `GetDevices` returns a list of length `c` whose
element `i`, for every `i` in `[0, c)`, is the wrapper of the backend's output
device `i`. -/
theorem getDevices_lists_every_device {σ δ γ : Type} (lib : SoundIoLib σ δ)
    (NewInstance : δ → γ) (info : List JsValue) (w : World σ)
    (hconn : lib.current_backend w.soundio ≠ lib.SoundIoBackendNone)
    (hcount : 0 ≤ lib.soundio_output_device_count (lib.soundio_flush_events w.soundio)) :
    ∃ r, (GetDevices lib NewInstance info w).returnValue = some r ∧
      (r.list.length : Int) =
        lib.soundio_output_device_count (lib.soundio_flush_events w.soundio) ∧
      ∀ i : Nat,
        (i : Int) < lib.soundio_output_device_count (lib.soundio_flush_events w.soundio) →
        r.list[i]? = some (some (NewInstance
          (lib.soundio_get_output_device (lib.soundio_flush_events w.soundio) (i : Int)))) := by
  rw [getDevices_connected lib NewInstance info w hconn]
  refine ⟨_, rfl, ?_, ?_⟩
  · simp only [List.length_map, List.length_range]
    exact Int.toNat_of_nonneg hcount
  · intro i hi
    have hi2 : i < (lib.soundio_output_device_count
        (lib.soundio_flush_events w.soundio)).toNat := by omega
    simp [List.getElem?_range hi2, hi2]

/-- C5 applies: the reference system connected to ALSA reports two devices. -/
theorem getDevices_lists_every_device_witness :
    ∃ r, (GetDevices refLib id [] (refWorld 3)).returnValue = some r ∧
      (r.list.length : Int) = 2 ∧
      ∀ i : Nat, (i : Int) < 2 →
        r.list[i]? = some (some (["hw:0", "hw:1"].getD (i : Int).toNat "")) :=
  getDevices_lists_every_device refLib id [] (refWorld 3) (by decide) (by decide)

/-! ## C6 -/

/-- C6, as stated, fails: when the backend of a connected handle with two
output devices reports default index 7, `GetDevices` succeeds and returns
`defaultIndex = 7`, which is neither -1 nor below the list length 2. -/
theorem getDevices_default_index_out_of_range :
    (GetDevices refLib id []
      (⟨⟨3, [3, 6], ["hw:0", "hw:1"], 7⟩, 0, []⟩ : World RefSoundIo)).exception = none ∧
    ((GetDevices refLib id []
      (⟨⟨3, [3, 6], ["hw:0", "hw:1"], 7⟩, 0, []⟩ : World RefSoundIo)).returnValue.map
        (fun r => (r.list, r.defaultIndex))) = some ([some "hw:0", some "hw:1"], 7) ∧
    ¬ ((7 : Int) = -1 ∨
      ((0 : Int) ≤ 7 ∧ (7 : Int) < (([some "hw:0", some "hw:1"] : JsArray String).length : Int))) := by
  decide

/-- C6, amended: a successful `GetDevices` returns as `defaultIndex` the
default output index the backend reported after the flush, unchanged; it is -1
or a valid index into the returned list exactly when the reported index is -1
or lies in `[0, count)` for the reported device count. -/
theorem getDevices_default_index_passthrough {σ δ γ : Type} (lib : SoundIoLib σ δ)
    (NewInstance : δ → γ) (info : List JsValue) (w : World σ)
    (hconn : lib.current_backend w.soundio ≠ lib.SoundIoBackendNone) :
    ∃ r, (GetDevices lib NewInstance info w).returnValue = some r ∧
      r.defaultIndex =
        lib.soundio_default_output_device_index (lib.soundio_flush_events w.soundio) ∧
      ((r.defaultIndex = -1 ∨ (0 ≤ r.defaultIndex ∧ r.defaultIndex < (r.list.length : Int))) ↔
        (lib.soundio_default_output_device_index (lib.soundio_flush_events w.soundio) = -1 ∨
          (0 ≤ lib.soundio_default_output_device_index (lib.soundio_flush_events w.soundio) ∧
            lib.soundio_default_output_device_index (lib.soundio_flush_events w.soundio) <
              lib.soundio_output_device_count (lib.soundio_flush_events w.soundio)))) := by
  rw [getDevices_connected lib NewInstance info w hconn]
  refine ⟨_, rfl, rfl, ?_⟩
  simp only [List.length_map, List.length_range]
  omega

/-- The amended C6 applies: the reference system connected to ALSA reports
default index 0 among two devices. -/
theorem getDevices_default_index_passthrough_witness :
    ∃ r, (GetDevices refLib id [] (refWorld 3)).returnValue = some r ∧
      r.defaultIndex = 0 ∧
      ((r.defaultIndex = -1 ∨ (0 ≤ r.defaultIndex ∧ r.defaultIndex < (r.list.length : Int))) ↔
        ((0 : Int) = -1 ∨ ((0 : Int) ≤ 0 ∧ (0 : Int) < 2))) :=
  getDevices_default_index_passthrough refLib id [] (refWorld 3) (by decide)

/-! ## C7 -/

/-- C7, as stated, fails: given two arguments of which the first is a number,
`SetLogging` throws nothing and sets the log level from the first argument,
although the argument list is not exactly one number. -/
theorem setLogging_accepts_extra_arguments :
    (SetLogging [JsValue.number (JsNumber.finite 2), JsValue.string "x"]
      (refWorld 0)).exception = none ∧
    (SetLogging [JsValue.number (JsNumber.finite 2), JsValue.string "x"]
      (refWorld 0)).world.log_level = 2 ∧
    (refWorld 0).log_level = 0 ∧
    ¬ (∃ d, [JsValue.number (JsNumber.finite 2), JsValue.string "x"] = [JsValue.number d]) := by
  refine ⟨by decide, by decide, by decide, ?_⟩
  rintro ⟨d, hd⟩
  cases hd

/-- C7, amended: `SetLogging` throws the type error "Expected 1 number
argument" if and only if the argument list is empty or its first argument is
not a number, and then the world, log level included, is unchanged; whenever
the first argument is a number (NaN and the infinities included), arguments
after it are ignored, nothing is thrown, and `groove_set_logging` is called
once with that number converted to the 32-bit `int`, which becomes the log
level: the truncation toward zero for a finite number whose truncation fits
in `int`. -/
theorem setLogging_rejects_iff_first_not_number {σ : Type} (info : List JsValue)
    (w : World σ) :
    ((SetLogging info w).exception =
        some (JsException.TypeError "Expected 1 number argument") ↔
      ¬ ∃ d rest, info = JsValue.number d :: rest) ∧
    ((¬ ∃ d rest, info = JsValue.number d :: rest) → (SetLogging info w).world = w) ∧
    (∀ d rest, info = JsValue.number d :: rest →
      (SetLogging info w).exception = none ∧
      (SetLogging info w).world.log_level = toInt d ∧
      (SetLogging info w).world.calls = w.calls ++ [NativeCall.groove_set_logging (toInt d)] ∧
      (SetLogging info w).world.soundio = w.soundio ∧
      INT_MIN ≤ (SetLogging info w).world.log_level ∧
      (SetLogging info w).world.log_level ≤ INT_MAX) ∧
    (∀ q rest, info = JsValue.number (JsNumber.finite q) :: rest →
      INT_MIN ≤ truncate q → truncate q ≤ INT_MAX →
      (SetLogging info w).world.log_level = truncate q ∧
      (SetLogging info w).world.calls =
        w.calls ++ [NativeCall.groove_set_logging (truncate q)]) := by
  have hnum : ∀ d rest, info = JsValue.number d :: rest →
      SetLogging info w =
        ⟨{ (w.logCall (NativeCall.groove_set_logging (toInt d))) with log_level := toInt d },
          none, none⟩ := by
    intro d rest h
    subst h
    simp [SetLogging, arg, JsValue.IsNumber, JsValue.IntValue]
  have hbad : (¬ ∃ d rest, info = JsValue.number d :: rest) →
      SetLogging info w =
        ⟨w, some (JsException.TypeError "Expected 1 number argument"), none⟩ := by
    intro h
    match info, h with
    | [], _ => simp [SetLogging]
    | v :: rest, h =>
      cases v with
      | number d => exact absurd ⟨d, rest, rfl⟩ h
      | _ => simp [SetLogging, arg, JsValue.IsNumber]
  refine ⟨⟨?_, ?_⟩, ?_, ?_, ?_⟩
  · intro hex hnumber
    obtain ⟨d, rest, h⟩ := hnumber
    rw [hnum d rest h] at hex
    cases hex
  · intro h
    rw [hbad h]
  · intro h
    rw [hbad h]
  · intro d rest h
    rw [hnum d rest h]
    exact ⟨rfl, rfl, rfl, rfl, (toInt_range d).1, (toInt_range d).2⟩
  · intro q rest h hlo hhi
    rw [hnum _ rest h, toInt_finite q hlo hhi]
    exact ⟨rfl, rfl⟩

/-- The amended C7 at concrete arguments: level 2 with an extra argument, and
2^31, whose conversion is `INT_MIN`. -/
theorem setLogging_rejects_iff_first_not_number_witness :
    (SetLogging [JsValue.number (JsNumber.finite 2), JsValue.string "x"]
      (refWorld 0)).world.calls = [NativeCall.groove_set_logging 2] ∧
    (SetLogging [JsValue.number (JsNumber.finite 2147483648)]
      (refWorld 0)).world.calls = [NativeCall.groove_set_logging (-2147483648)] ∧
    (SetLogging [JsValue.number JsNumber.nan] (refWorld 0)).exception = none :=
  ⟨((setLogging_rejects_iff_first_not_number
      [JsValue.number (JsNumber.finite 2), JsValue.string "x"] (refWorld 0)).2.2.2
      2 [JsValue.string "x"] rfl (by decide) (by decide)).2,
    ((setLogging_rejects_iff_first_not_number
      [JsValue.number (JsNumber.finite 2147483648)] (refWorld 0)).2.2.1
      (JsNumber.finite 2147483648) [] rfl).2.2.1,
    ((setLogging_rejects_iff_first_not_number
      [JsValue.number JsNumber.nan] (refWorld 0)).2.2.1 JsNumber.nan [] rfl).1⟩

/-! ## C8 -/

/-- C8: for a library whose disconnect leaves the handle disconnected,
`DisconnectSoundBackend` throws nothing from any state and leaves the state
Disconnected; from Disconnected the world is unchanged (no call logged), and
from Connected exactly one `soundio_disconnect` is logged and applied. -/
theorem disconnect_never_fails {σ δ : Type} (lib : SoundIoLib σ δ)
    (hdisc : ∀ s, lib.current_backend (lib.soundio_disconnect s) = lib.SoundIoBackendNone)
    (info : List JsValue) (w : World σ) :
    (DisconnectSoundBackend lib info w).exception = none ∧
    lib.current_backend (DisconnectSoundBackend lib info w).world.soundio =
      lib.SoundIoBackendNone ∧
    (lib.current_backend w.soundio = lib.SoundIoBackendNone →
      (DisconnectSoundBackend lib info w).world = w) ∧
    (lib.current_backend w.soundio ≠ lib.SoundIoBackendNone →
      (DisconnectSoundBackend lib info w).world.calls =
        w.calls ++ [NativeCall.soundio_disconnect] ∧
      (DisconnectSoundBackend lib info w).world.soundio = lib.soundio_disconnect w.soundio ∧
      (DisconnectSoundBackend lib info w).world.log_level = w.log_level) := by
  refine ⟨rfl, disconnectIfConnected_state lib hdisc w, ?_, ?_⟩
  · intro h
    exact disconnectIfConnected_disconnected lib w h
  · intro h
    show (disconnectIfConnected lib w).calls = _ ∧ (disconnectIfConnected lib w).soundio = _ ∧
      (disconnectIfConnected lib w).log_level = _
    rw [disconnectIfConnected_connected lib w h]
    exact ⟨rfl, rfl, rfl⟩

/-- C8 applies: the reference library's disconnect leaves the handle
disconnected; here from Connected(ALSA). -/
theorem disconnect_never_fails_witness :
    (∀ s, refLib.current_backend (refLib.soundio_disconnect s) = refLib.SoundIoBackendNone) ∧
    (DisconnectSoundBackend refLib [] (refWorld 3)).exception = none ∧
    refLib.current_backend (DisconnectSoundBackend refLib [] (refWorld 3)).world.soundio = 0 ∧
    (DisconnectSoundBackend refLib [] (refWorld 3)).world.calls =
      [NativeCall.soundio_disconnect] :=
  ⟨refLib_disconnect,
    (disconnect_never_fails refLib refLib_disconnect [] (refWorld 3)).1,
    (disconnect_never_fails refLib refLib_disconnect [] (refWorld 3)).2.1,
    ((disconnect_never_fails refLib refLib_disconnect [] (refWorld 3)).2.2.2 (by decide)).1⟩

/-! ## C9 -/

/-- C9, as stated, fails: called on the disconnected reference system with the
one numeric argument 0, `ConnectSoundBackend` makes the auto-selecting call
`soundio_connect` (which connects ALSA, 3), not `soundio_connect_backend`
with backend 0. -/
theorem connect_zero_auto_selects :
    (ConnectSoundBackend refLib [JsValue.number (JsNumber.finite 0)] (refWorld 0)).world.calls =
      [NativeCall.soundio_connect] ∧
    (ConnectSoundBackend refLib [JsValue.number (JsNumber.finite 0)] (refWorld 0)).world.calls ≠
      [NativeCall.soundio_connect_backend 0] ∧
    (ConnectSoundBackend refLib [JsValue.number (JsNumber.finite 0)] (refWorld 0)).exception = none ∧
    refLib.current_backend
      (ConnectSoundBackend refLib [JsValue.number (JsNumber.finite 0)]
        (refWorld 0)).world.soundio = 3 := by
  decide

/-- C9, amended: after the guarded teardown, `ConnectSoundBackend` calls the
auto-selecting `soundio_connect` exactly when the backend argument is omitted
or is a number whose conversion to the 32-bit `int` equals
`SoundIoBackendNone`; for every other single number `d` (NaN and the
infinities included) it calls `soundio_connect_backend` with backend `(int)d`,
which is the truncation of `d` toward zero for a finite `d` whose truncation
fits in `int`.  In each case the handle afterwards is the one that call
returned. -/
theorem connect_selects_backend {σ δ : Type} (lib : SoundIoLib σ δ) (w : World σ) :
    ((ConnectSoundBackend lib [] w).world.calls =
        (disconnectIfConnected lib w).calls ++ [NativeCall.soundio_connect] ∧
      (ConnectSoundBackend lib [] w).world.soundio =
        (lib.soundio_connect (disconnectIfConnected lib w).soundio).2) ∧
    (∀ d : JsNumber, toInt d = lib.SoundIoBackendNone →
      (ConnectSoundBackend lib [JsValue.number d] w).world.calls =
        (disconnectIfConnected lib w).calls ++ [NativeCall.soundio_connect] ∧
      (ConnectSoundBackend lib [JsValue.number d] w).world.soundio =
        (lib.soundio_connect (disconnectIfConnected lib w).soundio).2) ∧
    (∀ d : JsNumber, toInt d ≠ lib.SoundIoBackendNone →
      (ConnectSoundBackend lib [JsValue.number d] w).world.calls =
        (disconnectIfConnected lib w).calls ++
          [NativeCall.soundio_connect_backend (toInt d)] ∧
      (ConnectSoundBackend lib [JsValue.number d] w).world.soundio =
        (lib.soundio_connect_backend (disconnectIfConnected lib w).soundio (toInt d)).2 ∧
      INT_MIN ≤ toInt d ∧ toInt d ≤ INT_MAX) ∧
    (∀ q : Rat, INT_MIN ≤ truncate q → truncate q ≤ INT_MAX →
      truncate q ≠ lib.SoundIoBackendNone →
      (ConnectSoundBackend lib [JsValue.number (JsNumber.finite q)] w).world.calls =
        (disconnectIfConnected lib w).calls ++
          [NativeCall.soundio_connect_backend (truncate q)] ∧
      (ConnectSoundBackend lib [JsValue.number (JsNumber.finite q)] w).world.soundio =
        (lib.soundio_connect_backend (disconnectIfConnected lib w).soundio (truncate q)).2) := by
  have hnamed : ∀ d : JsNumber, toInt d ≠ lib.SoundIoBackendNone →
      (ConnectSoundBackend lib [JsValue.number d] w).world.calls =
        (disconnectIfConnected lib w).calls ++
          [NativeCall.soundio_connect_backend (toInt d)] ∧
      (ConnectSoundBackend lib [JsValue.number d] w).world.soundio =
        (lib.soundio_connect_backend (disconnectIfConnected lib w).soundio (toInt d)).2 := by
    intro d hd
    rw [connect_of_backend lib _ w _ (backend_number lib d)]
    simp [World.logCall, ConnectSoundBackend.call, ConnectSoundBackend.attempt, hd]
  refine ⟨?_, ?_, ?_, ?_⟩
  · rw [connect_of_backend lib [] w _ (backend_nil lib)]
    simp [World.logCall, ConnectSoundBackend.call, ConnectSoundBackend.attempt]
  · intro d hd
    rw [connect_of_backend lib _ w _ (backend_number lib d)]
    simp [World.logCall, ConnectSoundBackend.call, ConnectSoundBackend.attempt, hd]
  · intro d hd
    exact ⟨(hnamed d hd).1, (hnamed d hd).2, (toInt_range d).1, (toInt_range d).2⟩
  · intro q hlo hhi hq
    have h := hnamed (JsNumber.finite q) (by rw [toInt_finite q hlo hhi]; exact hq)
    rw [toInt_finite q hlo hhi] at h
    exact h

/-- The amended C9 at concrete arguments on the disconnected reference
system: 6 requests backend 6; 2^32, whose conversion is `INT_MIN`, requests
backend -2147483648. -/
theorem connect_selects_backend_witness :
    (ConnectSoundBackend refLib [JsValue.number (JsNumber.finite 6)]
      (refWorld 0)).world.calls = [NativeCall.soundio_connect_backend 6] ∧
    (ConnectSoundBackend refLib [JsValue.number (JsNumber.finite 4294967296)]
      (refWorld 0)).world.calls = [NativeCall.soundio_connect_backend (-2147483648)] :=
  ⟨((connect_selects_backend refLib (refWorld 0)).2.2.2 6
      (by decide) (by decide) (by decide)).1,
    ((connect_selects_backend refLib (refWorld 0)).2.2.1 (JsNumber.finite 4294967296)
      (by decide)).1⟩

/-! ## C10 -/

/-- C10: `Initialize` registers `cleanup` with `atexit` once when both handles
were created (non-null `soundio`, zero code from `groove_create`) and not at
all otherwise; the registration follows the two creations in the sequence of
steps and nothing after it registers again.  At normal exit `cleanup` runs
once: it destroys the groove handle, then the soundio handle, each once and
with the pointer that was created, which is the reverse of the creation order
(soundio, then groove).  After an abort nothing runs. -/
theorem cleanup_registered_once_and_reverses_creation (soundio_create : Option Nat)
    (groove_create : Int × Option Nat) :
    ((Initialize soundio_create groove_create Process.start).atexit = [ExitCallback.cleanup] ↔
      (soundio_create ≠ none ∧ groove_create.1 = 0)) ∧
    (¬ (soundio_create ≠ none ∧ groove_create.1 = 0) →
      (Initialize soundio_create groove_create Process.start).atexit = [] ∧
      (Initialize soundio_create groove_create Process.start).aborted = true ∧
      LifecycleEvent.atexit_cleanup ∉
        (Initialize soundio_create groove_create Process.start).events ∧
      processExit (Initialize soundio_create groove_create Process.start) =
        Initialize soundio_create groove_create Process.start) ∧
    (soundio_create ≠ none → groove_create.1 = 0 →
      (Initialize soundio_create groove_create Process.start).events =
        [LifecycleEvent.soundio_create soundio_create,
          LifecycleEvent.groove_create groove_create.1 groove_create.2,
          LifecycleEvent.atexit_cleanup]
          ++ (Initialize.subsystems.map LifecycleEvent.init
            ++ Initialize.properties.map LifecycleEvent.setProperty
            ++ Initialize.methods.map LifecycleEvent.setMethod) ∧
      LifecycleEvent.atexit_cleanup ∉
        (Initialize.subsystems.map LifecycleEvent.init
          ++ Initialize.properties.map LifecycleEvent.setProperty
          ++ Initialize.methods.map LifecycleEvent.setMethod) ∧
      (processExit (Initialize soundio_create groove_create Process.start)).events =
        (Initialize soundio_create groove_create Process.start).events ++
          [LifecycleEvent.groove_destroy groove_create.2,
            LifecycleEvent.soundio_destroy soundio_create] ∧
      creations (processExit (Initialize soundio_create groove_create Process.start)).events =
        [Handle.soundio, Handle.groove] ∧
      destructions (processExit (Initialize soundio_create groove_create Process.start)).events =
        [Handle.groove, Handle.soundio] ∧
      destructions (processExit (Initialize soundio_create groove_create Process.start)).events =
        (creations
          (processExit (Initialize soundio_create groove_create Process.start)).events).reverse) := by
  obtain ⟨err, g⟩ := groove_create
  cases soundio_create with
  | none =>
    refine ⟨?_, ?_, ?_⟩
    · simp [Initialize, Process.start]
    · intro _
      simp [Initialize, Process.start, processExit]
    · intro h
      exact absurd rfl h
  | some p =>
    by_cases herr : err = 0
    · subst herr
      refine ⟨?_, ?_, ?_⟩
      · simp [Initialize, Process.start]
      · intro h
        exact absurd ⟨by simp, rfl⟩ h
      · intro _ _
        refine ⟨?_, ?_, ?_, ?_, ?_, ?_⟩ <;>
          simp [Initialize, Process.start, processExit, ExitCallback.run, cleanup,
            Initialize.subsystems, Initialize.properties, Initialize.methods,
            creations, destructions]
    · refine ⟨?_, ?_, ?_⟩
      · simp [Initialize, Process.start, herr]
      · intro _
        simp [Initialize, Process.start, processExit, herr]
      · intro _ h
        exact absurd h herr

end Groove
